import Mathlib

/-!
Shallow embedding of the reconciliation core of the
nfs-subdir-external-provisioner repository: the vendored
sig-storage-lib-external-provisioner controller (controller.go), its volume
store strategies (volume_store.go) and the NFS backend provisioner
(provisioner.go).  Effectful calls (API server writes, cache lookups, the
pluggable backend) are modelled by explicit environment records whose fields
hold the outcome each call would produce; every function mirrors the Go
control flow over those outcomes and additionally reports which effects it
performed.
-/

namespace NfsProv

/- Kubernetes API string types.  In Go these are all string-typed constants,
so they are embedded as `String` abbreviations with named values. -/

abbrev ProvisioningState := String

/-- ProvisioningInBackground constant of provisioner.go. -/
def ProvisioningInBackground : ProvisioningState := "Background"

/-- ProvisioningFinished constant of provisioner.go. -/
def ProvisioningFinished : ProvisioningState := "Finished"

/-- ProvisioningNoChange constant of provisioner.go. -/
def ProvisioningNoChange : ProvisioningState := "NoChange"

/-- ProvisioningReschedule constant of provisioner.go. -/
def ProvisioningReschedule : ProvisioningState := "Reschedule"

abbrev VolumePhase := String

/-- The v1.VolumeBound phase constant. -/
def VolumeBound : VolumePhase := "Bound"

/-- The v1.VolumeReleased phase constant. -/
def VolumeReleased : VolumePhase := "Released"

abbrev ReclaimPolicy := String

/-- The v1.PersistentVolumeReclaimDelete policy constant. -/
def PersistentVolumeReclaimDelete : ReclaimPolicy := "Delete"

/-- The v1.PersistentVolumeReclaimRetain policy constant. -/
def PersistentVolumeReclaimRetain : ReclaimPolicy := "Retain"

/-- The v1.PersistentVolumeReclaimRecycle policy constant. -/
def PersistentVolumeReclaimRecycle : ReclaimPolicy := "Recycle"

abbrev VolumeBindingMode := String

/-- storage.VolumeBindingImmediate. -/
def VolumeBindingImmediate : VolumeBindingMode := "Immediate"

/-- storage.VolumeBindingWaitForFirstConsumer. -/
def VolumeBindingWaitForFirstConsumer : VolumeBindingMode := "WaitForFirstConsumer"

/- Annotation and finalizer constants of controller.go. -/

/-- Key "pv.kubernetes.io/provisioned-by" (annDynamicallyProvisioned). -/
def annDynamicallyProvisioned : String := "pv.kubernetes.io/provisioned-by"

/-- Key "volume.kubernetes.io/storage-provisioner" (annStorageProvisioner). -/
def annStorageProvisioner : String := "volume.kubernetes.io/storage-provisioner"

/-- Key "volume.beta.kubernetes.io/storage-provisioner" (annBetaStorageProvisioner). -/
def annBetaStorageProvisioner : String := "volume.beta.kubernetes.io/storage-provisioner"

/-- Key "volume.kubernetes.io/selected-node" (annSelectedNode). -/
def annSelectedNode : String := "volume.kubernetes.io/selected-node"

/-- Key "volume.alpha.kubernetes.io/selected-node" (annAlphaSelectedNode). -/
def annAlphaSelectedNode : String := "volume.alpha.kubernetes.io/selected-node"

/-- The protection finalizer finalizerPV of controller.go. -/
def finalizerPV : String := "external-provisioner.volume.kubernetes.io/finalizer"

/-- Go errors.  `stopProvision` is the sentinel errStopProvision, `ignored`
models the *IgnoredError type (recognised by type assertion in Go), and `msg`
is any other error, carrying its message text. -/
inductive Err where
  | stopProvision : Err
  | ignored (reason : String) : Err
  | msg (s : String) : Err
  deriving DecidableEq, Repr

/-- A Go map[string]string, embedded as an association list whose first
binding for a key is its value. -/
abbrev StrMap := List (String × String)

/-- Map lookup: value of the first binding for the key, `none` when absent. -/
def lookupKey : StrMap → String → Option String
  | [], _ => none
  | (k, v) :: rest, key => if k == key then some v else lookupKey rest key

/-- Go's delete(m, k): drop every binding for the key. -/
def removeKey (m : StrMap) (k : String) : StrMap :=
  m.filter (fun p => p.1 != k)

/-- Go's m[k] = v (metav1.SetMetaDataAnnotation). -/
def setKey (m : StrMap) (k v : String) : StrMap :=
  (k, v) :: removeKey m k

/-- getString of controller.go, specialised to one alternative key, the only
form used (annSelectedNode with annAlphaSelectedNode as alternative). -/
def getString (m : StrMap) (key alt : String) : Option String :=
  match lookupKey m key with
  | some v => some v
  | none => lookupKey m alt

/-- A v1.PersistentVolumeClaim, restricted to the fields this controller
reads.  `anns` models ObjectMeta.Annotations; `volumeName` is
Spec.VolumeName; `storageClassName` is the class resolved by
util.GetPersistentVolumeClaimClass; `isBlock` is the result of
util.CheckPersistentVolumeClaimModeBlock; `hasSelector` records whether
Spec.Selector is non-nil. -/
structure PersistentVolumeClaim where
  uid : String
  nspace : String
  name : String
  volumeName : String
  storageClassName : String
  anns : StrMap
  labels : StrMap
  isBlock : Bool
  hasSelector : Bool
  deriving DecidableEq, Repr

/-- A v1.NFSVolumeSource. -/
structure NFSVolumeSource where
  server : String
  path : String
  readOnly : Bool
  deriving DecidableEq, Repr

/-- A v1.PersistentVolume, restricted to the fields this controller reads or
writes.  `deletionTimestampSet` records whether ObjectMeta.DeletionTimestamp
is non-nil. -/
structure PersistentVolume where
  name : String
  finalizers : List String
  deletionTimestampSet : Bool
  phase : VolumePhase
  reclaimPolicy : ReclaimPolicy
  anns : StrMap
  storageClassName : String
  mountOptions : List String
  nfs : Option NFSVolumeSource
  deriving DecidableEq, Repr

/-- A storage.StorageClass, restricted to the fields used here. -/
structure StorageClass where
  name : String
  provisioner : String
  parameters : StrMap
  reclaimPolicy : ReclaimPolicy
  mountOptions : List String
  volumeBindingMode : Option VolumeBindingMode
  deriving DecidableEq, Repr

/-- ProvisionController configuration fields that influence the reconciliation
decisions (Go threshold fields are ints; only non-negative values are
meaningful, so Nat is used). -/
structure ProvisionController where
  provisionerName : String
  additionalProvisionerNames : List String
  addFinalizer : Bool
  failedProvisionThreshold : Nat
  deriving DecidableEq, Repr

/-- knownProvisioner of controller.go. -/
def knownProvisioner (ctrl : ProvisionController) (provisioner : String) : Bool :=
  provisioner == ctrl.provisionerName
    || ctrl.additionalProvisionerNames.contains provisioner

/-- checkFinalizer of controller.go: membership loop over the volume's
finalizer list. -/
def checkFinalizer (volume : PersistentVolume) (finalizer : String) : Bool :=
  volume.finalizers.contains finalizer

/-- The append loop of removeFinalizer of controller.go: keep, in order, every
entry different from the one being removed.  (The Go code resets the slice to
nil when it ends up empty, which is the empty list here.) -/
def removeFinalizerLoop : List String → String → List String
  | [], _ => []
  | x :: rest, f =>
    if x != f then x :: removeFinalizerLoop rest f else removeFinalizerLoop rest f

/-- removeFinalizer of controller.go: returns the filtered list and whether
its length changed. -/
def removeFinalizer (finalizers : List String) (finalizerToRemove : String) :
    List String × Bool :=
  let modifiedFinalizers := removeFinalizerLoop finalizers finalizerToRemove
  (modifiedFinalizers, modifiedFinalizers.length != finalizers.length)

/-- addFinalizer of controller.go: return unchanged with false when already
present, otherwise append and report true. -/
def addFinalizer (finalizers : List String) (finalizerToAdd : String) :
    List String × Bool :=
  if finalizers.contains finalizerToAdd then (finalizers, false)
  else (finalizers ++ [finalizerToAdd], true)

/-- shouldDelete of controller.go.  The optional DeletionGuard capability of
the provisioner is modelled by two booleans: whether the interface is
implemented and, if so, what its ShouldDelete returns for this volume.  The
two early-return bodies of the addFinalizer branch are flattened into guarded
conditions. -/
def shouldDelete (ctrl : ProvisionController)
    (guardImplemented guardShouldDelete : Bool) (volume : PersistentVolume) : Bool :=
  if guardImplemented && !guardShouldDelete then
    false
  else if ctrl.addFinalizer
      && (!checkFinalizer volume finalizerPV && volume.deletionTimestampSet) then
    false
  else if !ctrl.addFinalizer && volume.deletionTimestampSet then
    false
  else if !(volume.phase == VolumeReleased) then
    false
  else if !(volume.reclaimPolicy == PersistentVolumeReclaimDelete) then
    false
  else
    true

/-- Outcome of the node Get in provisionClaimOperation: found, a NotFound
error (apierrs.IsNotFound), or any other lookup error. -/
inductive NodeLookupResult where
  | found : NodeLookupResult
  | notFound : NodeLookupResult
  | otherError (s : String) : NodeLookupResult
  deriving DecidableEq, Repr

/-- Environment for one syncClaim pass: the outcomes of every external call
the claim path can make.  `volumes` holds the keys (PV names) present in the
local ctrl.volumes cache; `classes` is the storage-class cache;
`claimRefOk` is whether ref.GetReference succeeds; the two block fields model
the optional BlockProvisioner capability; `provisionVolume` /
`provisionState` / `provisionErr` are what provisioner.Provision would
return (the volume field is meaningful only when provisionErr is none);
`storeVolumeErr` is what volumeStore.StoreVolume returns;
`rescheduleUpdateOk` is whether the PVC Update in rescheduleProvisioning
succeeds. -/
structure ClaimSyncEnv where
  qualifierImplemented : Bool
  qualifierShouldProvision : Bool
  classes : List StorageClass
  volumes : List String
  claimRefOk : Bool
  blockImplemented : Bool
  blockSupported : Bool
  nodeLookup : NodeLookupResult
  provisionVolume : PersistentVolume
  provisionState : ProvisioningState
  provisionErr : Option Err
  storeVolumeErr : Option Err
  rescheduleUpdateOk : Bool
  deriving DecidableEq, Repr

/-- getStorageClass of controller.go over the class cache (the
beta-StorageClass conversion branch is not modelled: the cache here holds
storage.StorageClass values only). -/
def getStorageClass (env : ClaimSyncEnv) (name : String) : Except Err StorageClass :=
  match env.classes.find? (fun c => c.name == name) with
  | some c => Except.ok c
  | none => Except.error (Err.msg ("storageClass " ++ name ++ " not found"))

/-- The provisioner-annotation lookup of shouldProvision: the stable key
first, falling back to the beta key. -/
def provisionerAnn (claim : PersistentVolumeClaim) : Option String :=
  match lookupKey claim.anns annStorageProvisioner with
  | some p => some p
  | none => lookupKey claim.anns annBetaStorageProvisioner

/-- shouldProvision of controller.go.  Returns the (bool, error) pair of the
Go function. -/
def shouldProvision (ctrl : ProvisionController) (env : ClaimSyncEnv)
    (claim : PersistentVolumeClaim) : Bool × Option Err :=
  if claim.volumeName != "" then (false, none)
  else if env.qualifierImplemented && !env.qualifierShouldProvision then (false, none)
  else
    match provisionerAnn claim with
    | none => (false, none)
    | some provisioner =>
      if knownProvisioner ctrl provisioner then
        match getStorageClass env claim.storageClassName with
        | Except.error e => (false, some e)
        | Except.ok cls =>
          if cls.volumeBindingMode == some VolumeBindingWaitForFirstConsumer then
            match lookupKey claim.anns annSelectedNode with
            | some selectedNode => if selectedNode != "" then (true, none) else (false, none)
            | none => (false, none)
          else (true, none)
      else (false, none)

/-- supportsBlock of controller.go: the optional BlockProvisioner capability. -/
def supportsBlock (env : ClaimSyncEnv) : Bool :=
  env.blockImplemented && env.blockSupported

/-- canProvision of controller.go. -/
def canProvision (ctrl : ProvisionController) (env : ClaimSyncEnv)
    (claim : PersistentVolumeClaim) : Option Err :=
  if claim.isBlock && !supportsBlock env then
    some (Err.msg (ctrl.provisionerName ++ " does not support block volume provisioning"))
  else none

/-- getProvisionedVolumeNameForClaim of controller.go. -/
def getProvisionedVolumeNameForClaim (claim : PersistentVolumeClaim) : String :=
  "pvc-" ++ claim.uid

/-- rescheduleProvisioning of controller.go.  Returns the error result
together with the updated claim that was written to the API server and the
informer cache (none when nothing was written: either the selected-node key
was absent, or the Update failed).  A failure of the local cache update is
only logged in Go and does not change the result. -/
def rescheduleProvisioning (env : ClaimSyncEnv) (claim : PersistentVolumeClaim) :
    Option Err × Option PersistentVolumeClaim :=
  if (lookupKey claim.anns annSelectedNode).isNone then (none, none)
  else
    let newClaim := { claim with anns := removeKey claim.anns annSelectedNode }
    if env.rescheduleUpdateOk then (none, some newClaim)
    else (some (Err.msg "delete selected-node key for PersistentVolumeClaim failed"), none)

/-- provisionVolumeErrorHandling of controller.go.  Returns the
(state, error) pair together with the claim written by
rescheduleProvisioning, if any.  The incoming `err` is the (already wrapped)
provisioning or node-lookup error. -/
def provisionVolumeErrorHandling (env : ClaimSyncEnv) (result : ProvisioningState)
    (err : Err) (claim : PersistentVolumeClaim) :
    ProvisioningState × Option Err × Option PersistentVolumeClaim :=
  if (lookupKey claim.anns annSelectedNode).isSome && result == ProvisioningReschedule then
    match rescheduleProvisioning env claim with
    | (some _, _) => (ProvisioningFinished, some err, none)
    | (none, written) => (ProvisioningFinished, some Err.stopProvision, written)
  else
    let result2 := if result == ProvisioningReschedule then ProvisioningFinished else result
    (result2, some err, none)

/-- Result of provisionClaimOperation: the (state, error) pair of the Go
function plus the effects performed — whether provisioner.Provision was
invoked, whether volumeStore.StoreVolume was invoked, the claim written by
the rescheduling path (if any), and the ctrl.volumes cache content
afterwards. -/
structure ProvisionOpResult where
  state : ProvisioningState
  err : Option Err
  provisionCalled : Bool
  storeVolumeCalled : Bool
  claimWritten : Option PersistentVolumeClaim
  cacheAfter : List String
  deriving DecidableEq, Repr

/-- The tail of provisionClaimOperation from the provisioner.Provision call
onwards: error classification, volume decoration (claimRef attachment is not
tracked; the finalizer, provisioned-by stamp and class name are), StoreVolume
and the ctrl.volumes.Add.  Go wraps the Provision error with fmt.Errorf
before classifying it; the wrapping text is dropped here and the error value
kept. -/
def provisionAndStore (ctrl : ProvisionController) (env : ClaimSyncEnv)
    (claim : PersistentVolumeClaim) (cls : StorageClass) : ProvisionOpResult :=
  match env.provisionErr with
  | some (Err.ignored _) =>
    ⟨ProvisioningFinished, some Err.stopProvision, true, false, none, env.volumes⟩
  | some e =>
    let r := provisionVolumeErrorHandling env env.provisionState e claim
    ⟨r.1, r.2.1, true, false, r.2.2, env.volumes⟩
  | none =>
    let volume := env.provisionVolume
    let volume :=
      { volume with
        finalizers :=
          if ctrl.addFinalizer && !checkFinalizer volume finalizerPV then
            volume.finalizers ++ [finalizerPV]
          else volume.finalizers,
        anns := setKey volume.anns annDynamicallyProvisioned cls.provisioner,
        storageClassName := claim.storageClassName }
    match env.storeVolumeErr with
    | some e => ⟨ProvisioningFinished, some e, true, true, none, env.volumes⟩
    | none => ⟨ProvisioningFinished, none, true, true, none, volume.name :: env.volumes⟩

/-- provisionClaimOperation of controller.go. -/
def provisionClaimOperation (ctrl : ProvisionController) (env : ClaimSyncEnv)
    (claim : PersistentVolumeClaim) : ProvisionOpResult :=
  let pvName := getProvisionedVolumeNameForClaim claim
  if env.volumes.contains pvName then
    ⟨ProvisioningFinished, some Err.stopProvision, false, false, none, env.volumes⟩
  else if !env.claimRefOk then
    ⟨ProvisioningNoChange, some (Err.msg "unexpected error getting claim reference"),
      false, false, none, env.volumes⟩
  else if (canProvision ctrl env claim).isSome then
    ⟨ProvisioningFinished, some Err.stopProvision, false, false, none, env.volumes⟩
  else
    match getStorageClass env claim.storageClassName with
    | Except.error e =>
      ⟨ProvisioningFinished, some e, false, false, none, env.volumes⟩
    | Except.ok cls =>
      if !knownProvisioner ctrl cls.provisioner then
        ⟨ProvisioningFinished, some Err.stopProvision, false, false, none, env.volumes⟩
      else
        match getString claim.anns annSelectedNode annAlphaSelectedNode with
        | some _ =>
          match env.nodeLookup with
          | NodeLookupResult.notFound =>
            let r := provisionVolumeErrorHandling env ProvisioningReschedule
              (Err.msg "node not found") claim
            ⟨r.1, r.2.1, false, false, r.2.2, env.volumes⟩
          | NodeLookupResult.otherError s =>
            ⟨ProvisioningNoChange, some (Err.msg ("failed to get target node: " ++ s)),
              false, false, none, env.volumes⟩
          | NodeLookupResult.found => provisionAndStore ctrl env claim cls
        | none => provisionAndStore ctrl env claim cls

/-- sync.Map.Store on claimsInProgress, membership-wise: the set of stored
UIDs gains the key. -/
def insertUid (uid : String) (s : List String) : List String :=
  if s.contains uid then s else uid :: s

/-- sync.Map.Delete on claimsInProgress: the set of stored UIDs loses the
key. -/
def deleteUid (uid : String) (s : List String) : List String :=
  s.filter (fun u => u != uid)

/-- syncClaim of controller.go, acting on the claimsInProgress set (modelled
by the list of stored UIDs).  Returns the error result and the new set. -/
def syncClaim (ctrl : ProvisionController) (env : ClaimSyncEnv)
    (claim : PersistentVolumeClaim) (inProgress : List String) :
    Option Err × List String :=
  let sp := shouldProvision ctrl env claim
  match sp.2 with
  | some e => (some e, inProgress)
  | none =>
    if sp.1 then
      let r := provisionClaimOperation ctrl env claim
      if r.err.isNone || r.state == ProvisioningFinished then
        let finalErr : Option Err :=
          match r.err with
          | none => none
          | some Err.stopProvision => none
          | some e => some e
        (finalErr, deleteUid claim.uid inProgress)
      else if r.state == ProvisioningInBackground then
        (r.err, insertUid claim.uid inProgress)
      else
        (r.err, inProgress)
    else (none, inProgress)

/-- The queue-visible state of one claim key: its NumRequeues counter in the
rate limiter, whether the key is currently queued, and whether its UID is in
claimsInProgress. -/
structure ClaimKeyState where
  requeues : Nat
  queued : Bool
  inProgress : Bool
  deriving DecidableEq, Repr

/-- The queue bookkeeping of processNextClaimWorkItem of controller.go for
one key, parametrised by the failure threshold K and the result of
syncClaimHandler.  Get dequeues the key; on failure the key is re-enqueued
rate-limited (incrementing NumRequeues) while the threshold permits,
otherwise the UID is deleted from claimsInProgress and the key is Done but
not Forgotten (its NumRequeues counter survives); on success the key is
Forgotten (counter reset) and the UID deleted from claimsInProgress. -/
def processNextClaimWorkItem (K : Nat) (syncErr : Option Err) (st : ClaimKeyState) :
    ClaimKeyState :=
  let st1 := { st with queued := false }
  match syncErr with
  | some _ =>
    if K == 0 then { st1 with requeues := st1.requeues + 1, queued := true }
    else if st1.requeues < K then { st1 with requeues := st1.requeues + 1, queued := true }
    else { st1 with inProgress := false }
  | none => { st1 with requeues := 0, inProgress := false }

/-- n worker passes over a claim key whose reconciliation always fails with
the error e. -/
def iterateFailingClaim (K : Nat) (e : Err) : Nat → ClaimKeyState → ClaimKeyState
  | 0, st => st
  | n + 1, st => processNextClaimWorkItem K (some e) (iterateFailingClaim K e n st)

/-- Outcome of the PersistentVolumes().Update call that removes the
finalizer in deleteVolumeOperation: success, a NotFound error (ignored by
the Go code), or another error. -/
inductive UpdateResult where
  | ok : UpdateResult
  | notFound : UpdateResult
  | failed (s : String) : UpdateResult
  deriving DecidableEq, Repr

/-- Environment for deleteVolumeOperation: provisioner.Delete result,
whether the API-server PV Delete succeeds, the volume re-read from the local
cache afterwards (none when evicted), and the result of the finalizer-removal
Update. -/
structure VolumeSyncEnv where
  deleteResult : Option Err
  apiDeleteOk : Bool
  cacheVolume : Option PersistentVolume
  finalizerUpdate : UpdateResult
  deriving DecidableEq, Repr

/-- Result of deleteVolumeOperation: its error plus whether the API-server
PV Delete call was issued and whether an Update removing the protection
finalizer was issued. -/
structure DeleteOpResult where
  err : Option Err
  apiDeleteCalled : Bool
  finalizerUpdateIssued : Bool
  deriving DecidableEq, Repr

/-- deleteVolumeOperation of controller.go. -/
def deleteVolumeOperation (ctrl : ProvisionController) (env : VolumeSyncEnv)
    (volume : PersistentVolume) : DeleteOpResult :=
  match env.deleteResult with
  | some (Err.ignored _) => ⟨none, false, false⟩
  | some e => ⟨some e, false, false⟩
  | none =>
    if !env.apiDeleteOk then
      ⟨some (Err.msg "failed to delete persistentvolume"), true, false⟩
    else if ctrl.addFinalizer then
      if volume.finalizers.length > 0 then
        match env.cacheVolume with
        | none => ⟨none, true, false⟩
        | some newVolume =>
          let rem := removeFinalizer newVolume.finalizers finalizerPV
          if rem.2 then
            match env.finalizerUpdate with
            | UpdateResult.ok => ⟨none, true, true⟩
            | UpdateResult.notFound => ⟨none, true, true⟩
            | UpdateResult.failed s => ⟨some (Err.msg s), true, true⟩
          else ⟨none, true, false⟩
      else ⟨none, true, false⟩
    else ⟨none, true, false⟩

/-- Outcome of one PersistentVolumes().Create call in volume_store.go. -/
inductive CreateResult where
  | created : CreateResult
  | alreadyExists : CreateResult
  | failed (e : Err) : CreateResult
  deriving DecidableEq, Repr

/-- doSaveVolume of volume_store.go: nil on success or AlreadyExists,
otherwise the creation error (Go wraps it with an "error saving volume"
message; the error value is kept here). -/
def doSaveVolume (r : CreateResult) : Option Err :=
  match r with
  | CreateResult.created => none
  | CreateResult.alreadyExists => none
  | CreateResult.failed e => some e

/-- Result of queueStore.StoreVolume: the error returned to the caller and
whether the volume was parked in the side table and enqueued for background
retry. -/
structure QueueStoreResult where
  err : Option Err
  enqueued : Bool
  deriving DecidableEq, Repr

/-- queueStore.StoreVolume of volume_store.go: one synchronous save; on
failure the volume is enqueued for background retry and the error consumed. -/
def queueStoreStoreVolume (r : CreateResult) : QueueStoreResult :=
  match doSaveVolume r with
  | some _ => ⟨none, true⟩
  | none => ⟨none, false⟩

/-- The first wait.ExponentialBackoff loop of backoffStore.StoreVolume.
`attempts` lists the outcome of each Create call the backoff schedule has
budget for; the accumulator is lastSaveError.  When an attempt succeeds or
reports AlreadyExists the loop stops with nil; when the budget is exhausted
ExponentialBackoff reports a timeout and StoreVolume returns lastSaveError
(after the best-effort cleanup Delete loop, whose outcome never changes the
returned error). -/
def backoffStoreVolumeLoop (lastSaveError : Option Err) :
    List CreateResult → Option Err
  | [] => lastSaveError
  | a :: rest =>
    match a with
    | CreateResult.created => none
    | CreateResult.alreadyExists => none
    | CreateResult.failed e => backoffStoreVolumeLoop (some e) rest

/-- backoffStore.StoreVolume of volume_store.go, as the error it returns to
the caller. -/
def backoffStoreVolume (attempts : List CreateResult) : Option Err :=
  backoffStoreVolumeLoop none attempts

/- The NFS backend provisioner (provisioner.go of the repository). -/

/-- The nfsProvisioner type: its NFS server and exported base path. -/
structure NfsProvisioner where
  server : String
  path : String
  deriving DecidableEq, Repr

/-- Environment for nfsProvisioner.Provision: whether os.MkdirAll and
os.Chmod succeed, and the pathPattern substitution performed by
pvcMetadata.stringParser (a regex-template expansion over the claim
metadata, abstracted as a string function). -/
structure NfsEnv where
  mkdirOk : Bool
  chmodOk : Bool
  templateSubst : String → String

/-- controller.ProvisionOptions, restricted to the fields the NFS backend
reads. -/
structure ProvisionOptions where
  storageClass : StorageClass
  pvName : String
  pvc : PersistentVolumeClaim
  deriving DecidableEq, Repr

/-- Result of nfsProvisioner.Provision: the returned PV (none for nil), the
ProvisioningState, the error, and whether the MkdirAll and Chmod filesystem
effects were attempted. -/
structure NfsProvisionResult where
  pv : Option PersistentVolume
  state : ProvisioningState
  err : Option Err
  mkdirCalled : Bool
  chmodCalled : Bool
  deriving DecidableEq, Repr

/-- The mountPath constant of provisioner.go. -/
def mountPath : String := "/persistentvolumes"

/-- filepath.Join for the simple segment-to-base joins performed here (the
Go function additionally cleans the path, which is the identity on the
slash-free segments joined in provisioner.go). -/
def filepathJoin (a b : String) : String := a ++ "/" ++ b

/-- nfsProvisioner.Provision of provisioner.go.  Note the chmod-failure
branch returns the empty ProvisioningState (Go returns the zero value ""). -/
def nfsProvision (p : NfsProvisioner) (env : NfsEnv) (options : ProvisionOptions) :
    NfsProvisionResult :=
  if options.pvc.hasSelector then
    ⟨none, ProvisioningFinished, some (Err.msg "claim Selector is not supported"),
      false, false⟩
  else
    let pvcNamespace := options.pvc.nspace
    let pvcName := options.pvc.name
    let pvName := pvcNamespace ++ "-" ++ pvcName ++ "-" ++ options.pvName
    let fullPath := filepathJoin mountPath pvName
    let path := filepathJoin p.path pvName
    let paths :=
      match lookupKey options.storageClass.parameters "pathPattern" with
      | some pathPattern =>
        let customPath := env.templateSubst pathPattern
        if customPath != "" then
          (filepathJoin p.path customPath, filepathJoin mountPath customPath)
        else (path, fullPath)
      | none => (path, fullPath)
    if !env.mkdirOk then
      ⟨none, ProvisioningFinished,
        some (Err.msg "unable to create directory to provision new pv"), true, false⟩
    else if !env.chmodOk then
      ⟨none, "", some (Err.msg "chmod failed"), true, true⟩
    else
      ⟨some
        { name := options.pvName,
          finalizers := [],
          deletionTimestampSet := false,
          phase := "",
          reclaimPolicy := options.storageClass.reclaimPolicy,
          anns := [],
          storageClassName := "",
          mountOptions := options.storageClass.mountOptions,
          nfs := some ⟨p.server, paths.1, false⟩ },
        ProvisioningFinished, none, true, true⟩

/- Helper lemmas. -/

/-- A PersistentVolume with zero-valued fields, used to apply checkFinalizer
to a given finalizer list. -/
def emptyPV : PersistentVolume :=
  { name := "", finalizers := [], deletionTimestampSet := false, phase := "",
    reclaimPolicy := "", anns := [], storageClassName := "", mountOptions := [],
    nfs := none }

lemma removeFinalizerLoop_eq_filter (fs : List String) (f : String) :
    removeFinalizerLoop fs f = fs.filter (fun x => x != f) := by
  induction fs with
  | nil => rfl
  | cons x rest ih =>
    by_cases h : x = f
    · subst h
      simp [removeFinalizerLoop, List.filter_cons, ih]
    · simp [removeFinalizerLoop, List.filter_cons, ih, h]

lemma removeFinalizerLoop_of_not_mem (fs : List String) (f : String)
    (h : f ∉ fs) : removeFinalizerLoop fs f = fs := by
  induction fs with
  | nil => rfl
  | cons x rest ih =>
    have hx : ¬x = f := fun he => h (by simp [he])
    have hne : (x != f) = true := by simp [hx]
    simp only [removeFinalizerLoop]
    rw [if_pos hne, ih (fun hm => h (List.mem_cons_of_mem _ hm))]

lemma removeFinalizerLoop_length_lt (fs : List String) (f : String)
    (h : f ∈ fs) : (removeFinalizerLoop fs f).length < fs.length := by
  induction fs with
  | nil => cases h
  | cons x rest ih =>
    by_cases hx : x = f
    · subst hx
      have hle : (removeFinalizerLoop rest x).length ≤ rest.length := by
        rw [removeFinalizerLoop_eq_filter]
        exact List.length_filter_le _ _
      simp only [removeFinalizerLoop, bne_self_eq_false, Bool.false_eq_true,
        if_false, List.length_cons]
      omega
    · have hmem : f ∈ rest := by
        rcases List.mem_cons.mp h with h1 | h2
        · exact absurd h1.symm hx
        · exact h2
      have hne : (x != f) = true := by simp [hx]
      simp only [removeFinalizerLoop]
      rw [if_pos hne]
      simp only [List.length_cons]
      exact Nat.succ_lt_succ (ih hmem)

lemma removeFinalizerLoop_not_mem (fs : List String) (f : String) :
    f ∉ removeFinalizerLoop fs f := by
  induction fs with
  | nil => simp [removeFinalizerLoop]
  | cons x rest ih =>
    by_cases hx : x = f
    · subst hx
      simp only [removeFinalizerLoop, bne_self_eq_false, Bool.false_eq_true, if_false]
      exact ih
    · have hne : (x != f) = true := by simp [hx]
      simp only [removeFinalizerLoop]
      rw [if_pos hne]
      intro hmem
      rcases List.mem_cons.mp hmem with h1 | h2
      · exact hx h1.symm
      · exact ih h2

/-- Claim C9: for every finalizer list fs and finalizer f, addFinalizer
reports modified exactly when f is absent and otherwise returns the list
unchanged (hence a second application is a no-op); removeFinalizer reports
modified exactly when f occurs, removes every occurrence of f preserving the
order of the remaining entries, and checkFinalizer on the result never finds
f. -/
theorem finalizer_list_ops (fs : List String) (f : String) :
    ((addFinalizer fs f).2 = !fs.contains f) ∧
    ((addFinalizer fs f).1 = if fs.contains f then fs else fs ++ [f]) ∧
    (addFinalizer (addFinalizer fs f).1 f = ((addFinalizer fs f).1, false)) ∧
    ((removeFinalizer fs f).2 = fs.contains f) ∧
    ((removeFinalizer fs f).1 = fs.filter (fun x => x != f)) ∧
    (checkFinalizer { emptyPV with finalizers := (removeFinalizer fs f).1 } f = false) := by
  refine ⟨?_, ?_, ?_, ?_, ?_, ?_⟩
  · by_cases h : f ∈ fs <;> simp [addFinalizer, h]
  · by_cases h : f ∈ fs <;> simp [addFinalizer, h]
  · by_cases h : f ∈ fs <;> simp [addFinalizer, h]
  · by_cases h : f ∈ fs
    · have hlt := removeFinalizerLoop_length_lt fs f h
      have hne : ((removeFinalizerLoop fs f).length != fs.length) = true := by
        simp [Nat.ne_of_lt hlt]
      simp only [removeFinalizer, hne]
      simp [h]
    · have heq := removeFinalizerLoop_of_not_mem fs f h
      simp only [removeFinalizer, heq, bne_self_eq_false]
      simp [h]
  · simp [removeFinalizer, removeFinalizerLoop_eq_filter]
  · simp only [checkFinalizer, removeFinalizer]
    simpa using removeFinalizerLoop_not_mem fs f

lemma backoffStoreVolumeLoop_append_failed (es : List Err) (last : Option Err)
    (l : List CreateResult) :
    backoffStoreVolumeLoop last (es.map CreateResult.failed ++ l) =
      backoffStoreVolumeLoop (es.foldl (fun _ e => some e) last) l := by
  induction es generalizing last with
  | nil => rfl
  | cons e es ih => simp [backoffStoreVolumeLoop, ih]

/-- Claim C8: queueStore.StoreVolume never reports an error to its caller and
enqueues the volume for background retry exactly when the synchronous create
failed (an AlreadyExists create counts as success and is not enqueued);
backoffStore.StoreVolume returns the creation error of the last attempt when
every attempt fails, and returns nil as soon as an attempt succeeds or
reports AlreadyExists. -/
theorem volume_store_error_propagation :
    (∀ r, (queueStoreStoreVolume r).err = none) ∧
    (∀ e, (queueStoreStoreVolume (CreateResult.failed e)).enqueued = true) ∧
    (queueStoreStoreVolume CreateResult.alreadyExists = ⟨none, false⟩) ∧
    (∀ (es : List Err) (e : Err),
      backoffStoreVolume ((es ++ [e]).map CreateResult.failed) = some e) ∧
    (∀ (es : List Err) (rest : List CreateResult),
      backoffStoreVolume
        (es.map CreateResult.failed ++ CreateResult.alreadyExists :: rest) = none) ∧
    (∀ (es : List Err) (rest : List CreateResult),
      backoffStoreVolume
        (es.map CreateResult.failed ++ CreateResult.created :: rest) = none) := by
  refine ⟨?_, ?_, ?_, ?_, ?_, ?_⟩
  · intro r
    cases r <;> rfl
  · intro e
    rfl
  · rfl
  · intro es e
    have h := backoffStoreVolumeLoop_append_failed (es ++ [e]) none []
    simp only [List.append_nil] at h
    unfold backoffStoreVolume
    rw [h]
    simp [backoffStoreVolumeLoop, List.foldl_append]
  · intro es rest
    unfold backoffStoreVolume
    rw [backoffStoreVolumeLoop_append_failed]
    rfl
  · intro es rest
    unfold backoffStoreVolume
    rw [backoffStoreVolumeLoop_append_failed]
    rfl

/- Claim C2. -/

/-- Controller with finalizer management enabled, for the C2 counterexample. -/
def c2ctrl : ProvisionController :=
  { provisionerName := "example.com/nfs", additionalProvisionerNames := [],
    addFinalizer := true, failedProvisionThreshold := 15 }

/-- A Released, reclaim-Delete volume that is pending deletion and still
carries the protection finalizer. -/
def c2vol : PersistentVolume :=
  { name := "pvc-u2", finalizers := [finalizerPV], deletionTimestampSet := true,
    phase := VolumeReleased, reclaimPolicy := PersistentVolumeReclaimDelete,
    anns := [], storageClassName := "sc", mountOptions := [], nfs := none }

/-- Claim C2 counterexample: with finalizer management enabled, a volume that
is pending deletion (deletion timestamp set) and still carries the protection
finalizer IS eligible for deletion — shouldDelete returns true, where the
claim asserts it refuses while the finalizer is still present.  The code
refuses in the opposite situation (finalizer already removed from a volume
pending deletion). -/
theorem shouldDelete_finalizer_present_counterexample :
    c2ctrl.addFinalizer = true ∧
    checkFinalizer c2vol finalizerPV = true ∧
    c2vol.deletionTimestampSet = true ∧
    shouldDelete c2ctrl false true c2vol = true := by
  refine ⟨rfl, ?_, rfl, ?_⟩ <;> rfl

/-- Claim C2 (amended): shouldDelete returns true exactly when the optional
deletion-guard hook does not veto; when finalizer management is enabled it is
NOT the case that the protection finalizer is absent from a volume pending
deletion (the code refuses once the finalizer has already been removed from a
volume with a deletion timestamp — a volume still carrying the finalizer may
proceed); when finalizer management is disabled no deletion timestamp is set;
the phase is Released; and the reclaim policy is exactly Delete. -/
theorem shouldDelete_characterization (ctrl : ProvisionController)
    (gi gr : Bool) (v : PersistentVolume) :
    shouldDelete ctrl gi gr v = true ↔
      ((gi = true → gr = true) ∧
       (ctrl.addFinalizer = true →
         ¬(checkFinalizer v finalizerPV = false ∧ v.deletionTimestampSet = true)) ∧
       (ctrl.addFinalizer = false → v.deletionTimestampSet = false) ∧
       v.phase = VolumeReleased ∧
       v.reclaimPolicy = PersistentVolumeReclaimDelete) := by
  unfold shouldDelete
  cases gi <;> cases gr <;> cases haf : ctrl.addFinalizer <;>
    cases hts : v.deletionTimestampSet <;> cases hcf : checkFinalizer v finalizerPV <;>
      simp [haf, hts, hcf]

/- Claim C10. -/

/-- Claim C10: for every claim whose spec carries a non-nil label Selector,
nfsProvisioner.Provision returns a nil volume, the Finished provisioning
state and a non-nil error, before attempting any directory creation or other
filesystem mutation. -/
theorem nfs_provision_rejects_selector (p : NfsProvisioner) (env : NfsEnv)
    (options : ProvisionOptions) (h : options.pvc.hasSelector = true) :
    nfsProvision p env options =
      ⟨none, ProvisioningFinished, some (Err.msg "claim Selector is not supported"),
        false, false⟩ := by
  unfold nfsProvision
  rw [h]
  rfl

/-- A concrete claim with a label selector, witnessing C10. -/
def c10pvc : PersistentVolumeClaim :=
  { uid := "u10", nspace := "ns", name := "data", volumeName := "",
    storageClassName := "nfs-sc", anns := [], labels := [("app", "db")],
    isBlock := false, hasSelector := true }

/-- Concrete provision options for the C10 witness. -/
def c10options : ProvisionOptions :=
  { storageClass :=
      { name := "nfs-sc", provisioner := "example.com/nfs", parameters := [],
        reclaimPolicy := PersistentVolumeReclaimDelete, mountOptions := [],
        volumeBindingMode := none },
    pvName := "pvc-u10", pvc := c10pvc }

/-- Witness for C10 at a concrete selector-carrying claim. -/
theorem nfs_provision_rejects_selector_witness :
    nfsProvision ⟨"nfs.example.com", "/exported"⟩ ⟨true, true, id⟩ c10options =
      ⟨none, ProvisioningFinished, some (Err.msg "claim Selector is not supported"),
        false, false⟩ :=
  nfs_provision_rejects_selector ⟨"nfs.example.com", "/exported"⟩ ⟨true, true, id⟩
    c10options rfl

/- Claim C3. -/

/-- Claim C3: shouldProvision returns false (with no error) for any claim
already bound to a volume; the optional qualifier hook can veto; and it
returns true only when the claim's provisioner annotation (stable key, beta
fallback) names an identity this controller answers to and either the
resolved storage class's binding mode is not wait-for-first-consumer
(immediate), or it is wait-for-first-consumer and the claim's selected-node
annotation is present and non-empty. -/
theorem shouldProvision_characterization (ctrl : ProvisionController)
    (env : ClaimSyncEnv) (claim : PersistentVolumeClaim) :
    (claim.volumeName ≠ "" → shouldProvision ctrl env claim = (false, none)) ∧
    (env.qualifierImplemented = true → env.qualifierShouldProvision = false →
      (shouldProvision ctrl env claim).1 = false) ∧
    ((shouldProvision ctrl env claim).1 = true →
      ∃ p cls, provisionerAnn claim = some p ∧ knownProvisioner ctrl p = true ∧
        getStorageClass env claim.storageClassName = Except.ok cls ∧
        (cls.volumeBindingMode ≠ some VolumeBindingWaitForFirstConsumer ∨
          (cls.volumeBindingMode = some VolumeBindingWaitForFirstConsumer ∧
            ∃ node, lookupKey claim.anns annSelectedNode = some node ∧ node ≠ ""))) := by
  refine ⟨?_, ?_, ?_⟩
  · intro h
    have hb : (claim.volumeName != "") = true := by simpa using h
    simp [shouldProvision, hb]
  · intro h1 h2
    unfold shouldProvision
    by_cases hb : claim.volumeName = ""
    · simp [hb, h1, h2]
    · have hb2 : (claim.volumeName != "") = true := by simpa using hb
      simp [hb2]
  · intro h
    unfold shouldProvision at h
    by_cases hb : claim.volumeName = ""
    case neg =>
      have hb2 : (claim.volumeName != "") = true := by simpa using hb
      simp [hb2] at h
    case pos =>
    simp only [hb, bne_self_eq_false, Bool.false_eq_true, if_false] at h
    by_cases hq : env.qualifierImplemented && !env.qualifierShouldProvision
    case pos => simp [hq] at h
    case neg =>
    rw [if_neg (by simpa using hq)] at h
    cases hp : provisionerAnn claim with
    | none => rw [hp] at h; simp at h
    | some p =>
      rw [hp] at h
      cases hk : knownProvisioner ctrl p with
      | false => simp [hk] at h
      | true =>
        cases hc : getStorageClass env claim.storageClassName with
        | error e => simp [hk, hc] at h
        | ok cls =>
          refine ⟨p, cls, rfl, hk, rfl, ?_⟩
          by_cases hm : cls.volumeBindingMode = some VolumeBindingWaitForFirstConsumer
          case neg => exact Or.inl hm
          case pos =>
          refine Or.inr ⟨hm, ?_⟩
          cases hn : lookupKey claim.anns annSelectedNode with
          | none => simp [hk, hc, hm, hn] at h
          | some node =>
            refine ⟨node, rfl, ?_⟩
            intro hne
            subst hne
            simp [hk, hc, hm, hn] at h

/-- Concrete fixtures for the C3 witness: a bound claim, a vetoing qualifier
and a provisionable claim. -/
def c3ctrl : ProvisionController :=
  { provisionerName := "example.com/nfs", additionalProvisionerNames := [],
    addFinalizer := false, failedProvisionThreshold := 15 }

/-- Storage class for the C3 witness. -/
def c3class : StorageClass :=
  { name := "nfs-sc", provisioner := "example.com/nfs", parameters := [],
    reclaimPolicy := PersistentVolumeReclaimDelete, mountOptions := [],
    volumeBindingMode := none }

/-- Environment for the C3 witness. -/
def c3env : ClaimSyncEnv :=
  { qualifierImplemented := true, qualifierShouldProvision := false,
    classes := [c3class], volumes := [], claimRefOk := true,
    blockImplemented := false, blockSupported := false,
    nodeLookup := NodeLookupResult.found,
    provisionVolume := emptyPV, provisionState := ProvisioningFinished,
    provisionErr := none, storeVolumeErr := none, rescheduleUpdateOk := true }

/-- A claim already bound to a volume, for the C3 witness. -/
def c3boundClaim : PersistentVolumeClaim :=
  { uid := "u3", nspace := "ns", name := "bound", volumeName := "pv-existing",
    storageClassName := "nfs-sc", anns := [], labels := [],
    isBlock := false, hasSelector := false }

/-- Witness for C3: the bound-claim clause and the qualifier-veto clause of
the characterization, evaluated at concrete inputs. -/
theorem shouldProvision_characterization_witness :
    shouldProvision c3ctrl c3env c3boundClaim = (false, none) ∧
    (shouldProvision c3ctrl c3env c3boundClaim).1 = false :=
  ⟨(shouldProvision_characterization c3ctrl c3env c3boundClaim).1 (by decide),
   (shouldProvision_characterization c3ctrl c3env c3boundClaim).2.1 rfl rfl⟩

/- Claim C4. -/

lemma lookupKey_removeKey (m : StrMap) (k : String) :
    lookupKey (removeKey m k) k = none := by
  induction m with
  | nil => rfl
  | cons p rest ih =>
    by_cases h : p.1 = k
    · simpa [removeKey, List.filter_cons, h] using ih
    · have hne : (p.1 != k) = true := by simp [h]
      simp only [removeKey, List.filter_cons, hne, if_true]
      simp only [lookupKey]
      rw [if_neg (by simpa using h)]
      simpa [removeKey] using ih

/-- Claim C4: when the claim carries the selected-node annotation and the
provisioning outcome is the Reschedule state, the error-handling path removes
that annotation from the claim (writing the updated claim to the API server
and the informer cache) and returns the terminal Finished state with the
stop-provision sentinel, so the worker treats the attempt as done and no
retry against the original node is queued; if removing the annotation fails,
the Finished state with the original error is returned instead (a normal
retryable failure) and nothing is written.  Any claim written by this path no
longer resolves the selected-node key. -/
theorem reschedule_clears_selected_node (env : ClaimSyncEnv)
    (claim : PersistentVolumeClaim) (e : Err)
    (hsel : (lookupKey claim.anns annSelectedNode).isSome = true) :
    (env.rescheduleUpdateOk = true →
      provisionVolumeErrorHandling env ProvisioningReschedule e claim =
        (ProvisioningFinished, some Err.stopProvision,
          some { claim with anns := removeKey claim.anns annSelectedNode })) ∧
    (env.rescheduleUpdateOk = false →
      provisionVolumeErrorHandling env ProvisioningReschedule e claim =
        (ProvisioningFinished, some e, none)) ∧
    (∀ c2, (provisionVolumeErrorHandling env ProvisioningReschedule e claim).2.2 = some c2 →
      lookupKey c2.anns annSelectedNode = none) := by
  have hnone : ¬(lookupKey claim.anns annSelectedNode).isNone = true := by
    cases hx : lookupKey claim.anns annSelectedNode with
    | none => rw [hx] at hsel; simp at hsel
    | some v => simp
  refine ⟨?_, ?_, ?_⟩
  · intro hok
    simp [provisionVolumeErrorHandling, rescheduleProvisioning, hsel, hnone, hok]
  · intro hfail
    simp [provisionVolumeErrorHandling, rescheduleProvisioning, hsel, hnone, hfail]
  · intro c2 hc2
    cases hok : env.rescheduleUpdateOk with
    | false =>
      simp [provisionVolumeErrorHandling, rescheduleProvisioning, hsel, hnone, hok] at hc2
    | true =>
      simp only [provisionVolumeErrorHandling, rescheduleProvisioning, hsel, hnone, hok] at hc2
      simp at hc2
      rw [← hc2]
      exact lookupKey_removeKey claim.anns annSelectedNode

/-- A claim carrying the selected-node annotation, for the C4 witness. -/
def c4claim : PersistentVolumeClaim :=
  { uid := "u4", nspace := "ns", name := "wffc", volumeName := "",
    storageClassName := "nfs-sc", anns := [(annSelectedNode, "node-a")],
    labels := [], isBlock := false, hasSelector := false }

/-- Environment whose claim Update succeeds, for the C4 witness. -/
def c4env : ClaimSyncEnv :=
  { c3env with rescheduleUpdateOk := true }

/-- Witness for C4: at a concrete claim with the selected-node annotation and
a succeeding Update, the Reschedule outcome yields the Finished state, the
stop-provision sentinel and the claim rewritten without the annotation. -/
theorem reschedule_clears_selected_node_witness :
    provisionVolumeErrorHandling c4env ProvisioningReschedule (Err.msg "no space") c4claim =
      (ProvisioningFinished, some Err.stopProvision,
        some { c4claim with anns := removeKey c4claim.anns annSelectedNode }) :=
  (reschedule_clears_selected_node c4env c4claim (Err.msg "no space") (by decide)).1 rfl

/- Claim C1. -/

lemma provisionVolumeErrorHandling_err_isSome (env : ClaimSyncEnv)
    (result : ProvisioningState) (e : Err) (claim : PersistentVolumeClaim) :
    (provisionVolumeErrorHandling env result e claim).2.1.isSome = true := by
  unfold provisionVolumeErrorHandling
  split
  · cases hr : rescheduleProvisioning env claim with
    | mk o w => cases o <;> simp
  · simp

/-- Claim C1: the provisioned volume name is computed deterministically as
"pvc-" plus the claim's UID; when a volume under that name is already in the
local cache, provisionClaimOperation returns the terminal Finished state with
the stop-provision sentinel without invoking the backend Provision or the
volume store and leaves the cache unchanged, so repeated reconciliation of
the same claim never creates a second volume; and a fully successful pass
inserts the provisioned volume's name into the local cache, so a subsequent
pass over a backend honouring the requested deterministic name takes that
early exit. -/
theorem provision_at_most_once (ctrl : ProvisionController) (env : ClaimSyncEnv)
    (claim : PersistentVolumeClaim) :
    (getProvisionedVolumeNameForClaim claim = "pvc-" ++ claim.uid) ∧
    (env.volumes.contains (getProvisionedVolumeNameForClaim claim) = true →
      provisionClaimOperation ctrl env claim =
        ⟨ProvisioningFinished, some Err.stopProvision, false, false, none, env.volumes⟩) ∧
    ((provisionClaimOperation ctrl env claim).err = none →
      env.provisionVolume.name = getProvisionedVolumeNameForClaim claim →
      (provisionClaimOperation ctrl env claim).cacheAfter.contains
        (getProvisionedVolumeNameForClaim claim) = true) := by
  refine ⟨rfl, ?_, ?_⟩
  · intro h
    have h1 : getProvisionedVolumeNameForClaim claim ∈ env.volumes := by simpa using h
    simp [provisionClaimOperation, h1]
  · intro herr hname
    have hstore : ∀ cls, (provisionAndStore ctrl env claim cls).err = none →
        (provisionAndStore ctrl env claim cls).cacheAfter.contains
          (getProvisionedVolumeNameForClaim claim) = true := by
      intro cls h2
      cases hH : env.provisionErr with
      | none =>
        cases hI : env.storeVolumeErr with
        | none => simp [provisionAndStore, hH, hI, hname]
        | some e2 => simp [provisionAndStore, hH, hI] at h2
      | some e2 =>
        cases e2 with
        | ignored r => simp [provisionAndStore, hH] at h2
        | stopProvision =>
          have hs := provisionVolumeErrorHandling_err_isSome env
            env.provisionState Err.stopProvision claim
          simp [provisionAndStore, hH] at h2
          rw [h2] at hs
          simp at hs
        | msg s =>
          have hs := provisionVolumeErrorHandling_err_isSome env
            env.provisionState (Err.msg s) claim
          simp [provisionAndStore, hH] at h2
          rw [h2] at hs
          simp at hs
    by_cases hA : getProvisionedVolumeNameForClaim claim ∈ env.volumes
    · simp [provisionClaimOperation, hA] at herr
    · cases hB : env.claimRefOk with
      | false => simp [provisionClaimOperation, hA, hB] at herr
      | true =>
        cases hC : canProvision ctrl env claim with
        | some e => simp [provisionClaimOperation, hA, hB, hC] at herr
        | none =>
          rcases hD : getStorageClass env claim.storageClassName with e | cls
          · simp [provisionClaimOperation, hA, hB, hC, hD] at herr
          · cases hE : knownProvisioner ctrl cls.provisioner with
            | false => simp [provisionClaimOperation, hA, hB, hC, hD, hE] at herr
            | true =>
              cases hF : getString claim.anns annSelectedNode annAlphaSelectedNode with
              | none =>
                have hred : provisionClaimOperation ctrl env claim =
                    provisionAndStore ctrl env claim cls := by
                  simp [provisionClaimOperation, hA, hB, hC, hD, hE, hF]
                rw [hred] at herr ⊢
                exact hstore cls herr
              | some v =>
                cases hG : env.nodeLookup with
                | notFound =>
                  have hs := provisionVolumeErrorHandling_err_isSome env
                    ProvisioningReschedule (Err.msg "node not found") claim
                  simp [provisionClaimOperation, hA, hB, hC, hD, hE, hF, hG] at herr
                  rw [herr] at hs
                  simp at hs
                | otherError s =>
                  simp [provisionClaimOperation, hA, hB, hC, hD, hE, hF, hG] at herr
                | found =>
                  have hred : provisionClaimOperation ctrl env claim =
                      provisionAndStore ctrl env claim cls := by
                    simp [provisionClaimOperation, hA, hB, hC, hD, hE, hF, hG]
                  rw [hred] at herr ⊢
                  exact hstore cls herr

/-- Claim with no selected-node annotation whose deterministic volume name is
already cached, for the C1 witness. -/
def c1claim : PersistentVolumeClaim :=
  { uid := "u1", nspace := "ns", name := "data", volumeName := "",
    storageClassName := "nfs-sc", anns := [], labels := [],
    isBlock := false, hasSelector := false }

/-- Environment whose volume cache already holds "pvc-u1", for the C1
witness. -/
def c1env : ClaimSyncEnv :=
  { c3env with volumes := ["pvc-u1"] }

/-- Witness for C1: with "pvc-u1" already cached, the operation finishes with
the stop-provision sentinel, no backend call, no store call and an unchanged
cache. -/
theorem provision_at_most_once_witness :
    provisionClaimOperation c3ctrl c1env c1claim =
      ⟨ProvisioningFinished, some Err.stopProvision, false, false, none, c1env.volumes⟩ :=
  (provision_at_most_once c3ctrl c1env c1claim).2.1 (by decide)

/- Claim C5. -/

/-- Claim C5: after a syncClaim step over a claim that should be provisioned,
the in-progress set is maintained as follows — a successful outcome (nil
error) or a Finished state deletes the claim's UID from the set; an
InBackground state with a non-nil error stores the UID; a NoChange state with
a non-nil error leaves the set untouched. -/
theorem syncClaim_inprogress_tracking (ctrl : ProvisionController)
    (env : ClaimSyncEnv) (claim : PersistentVolumeClaim) (S : List String)
    (hshould : shouldProvision ctrl env claim = (true, none)) :
    (((provisionClaimOperation ctrl env claim).err = none ∨
        (provisionClaimOperation ctrl env claim).state = ProvisioningFinished) →
      (syncClaim ctrl env claim S).2 = deleteUid claim.uid S) ∧
    ((provisionClaimOperation ctrl env claim).state = ProvisioningInBackground →
      (provisionClaimOperation ctrl env claim).err ≠ none →
      (syncClaim ctrl env claim S).2 = insertUid claim.uid S) ∧
    ((provisionClaimOperation ctrl env claim).state = ProvisioningNoChange →
      (provisionClaimOperation ctrl env claim).err ≠ none →
      (syncClaim ctrl env claim S).2 = S) := by
  refine ⟨?_, ?_, ?_⟩
  · intro h
    have hcond : ((provisionClaimOperation ctrl env claim).err.isNone
        || ((provisionClaimOperation ctrl env claim).state == ProvisioningFinished)) = true := by
      rcases h with h | h
      · simp [h]
      · simp [h]
    simp [syncClaim, hshould, hcond]
  · intro h1 h2
    have hc1 : (provisionClaimOperation ctrl env claim).err.isNone = false := by
      cases he : (provisionClaimOperation ctrl env claim).err with
      | none => exact absurd he h2
      | some e => rfl
    have hc2 : ((provisionClaimOperation ctrl env claim).state
        == ProvisioningFinished) = false := by
      rw [h1]; rfl
    have hc3 : ((provisionClaimOperation ctrl env claim).state
        == ProvisioningInBackground) = true := by
      rw [h1]; rfl
    simp [syncClaim, hshould, hc1, hc2, hc3]
  · intro h1 h2
    have hc1 : (provisionClaimOperation ctrl env claim).err.isNone = false := by
      cases he : (provisionClaimOperation ctrl env claim).err with
      | none => exact absurd he h2
      | some e => rfl
    have hc2 : ((provisionClaimOperation ctrl env claim).state
        == ProvisioningFinished) = false := by
      rw [h1]; rfl
    have hc3 : ((provisionClaimOperation ctrl env claim).state
        == ProvisioningInBackground) = false := by
      rw [h1]; rfl
    simp [syncClaim, hshould, hc1, hc2, hc3]

/-- A provisionable claim (known provisioner annotation, immediate binding)
for the C5 witness. -/
def c5claim : PersistentVolumeClaim :=
  { uid := "u5", nspace := "ns", name := "data", volumeName := "",
    storageClassName := "nfs-sc",
    anns := [(annStorageProvisioner, "example.com/nfs")], labels := [],
    isBlock := false, hasSelector := false }

/-- Environment for the C5 witness: no qualifier, Provision fails terminally
with the Finished state. -/
def c5env : ClaimSyncEnv :=
  { c3env with
    qualifierImplemented := false,
    provisionErr := some (Err.msg "backend exploded"),
    provisionState := ProvisioningFinished }

/-- Witness for C5: a Finished failing outcome removes the UID from a
concrete in-progress set. -/
theorem syncClaim_inprogress_tracking_witness :
    (syncClaim c3ctrl c5env c5claim ["u5", "x"]).2 = deleteUid c5claim.uid ["u5", "x"] :=
  (syncClaim_inprogress_tracking c3ctrl c5env c5claim ["u5", "x"] rfl).1 (Or.inr rfl)

/- Claim C6. -/

lemma iterateFailingClaim_run (K : Nat) (e : Err) :
    ∀ n, (K = 0 ∨ n ≤ K) →
      iterateFailingClaim K e n ⟨0, true, true⟩ = ⟨n, true, true⟩ := by
  intro n
  induction n with
  | zero => intro _; rfl
  | succ n ih =>
    intro h
    have hn : K = 0 ∨ n ≤ K := by
      rcases h with h | h
      · exact Or.inl h
      · exact Or.inr (Nat.le_of_succ_le h)
    rw [iterateFailingClaim, ih hn]
    unfold processNextClaimWorkItem
    rcases h with h0 | hle
    · subst h0; simp
    · have hlt : n < K := hle
      by_cases hK : K = 0
      · subst hK; simp
      · have hKb : (K == 0) = false := by simpa using hK
        simp [hKb, hlt]

/-- Claim C6: for threshold K > 0 and a claim key whose reconciliation always
fails, each of the first K worker passes re-enqueues the key rate-limited
(the requeue count staying at the number of passes so far, below or at K),
and the (K+1)-th pass gives up: the key is no longer queued and its UID is
deleted from the in-progress set (with the requeue counter retained, as the
key is Done but not Forgotten); for K = 0 the key is re-enqueued on every
pass indefinitely. -/
theorem claim_retry_threshold (K : Nat) (e : Err) :
    (0 < K →
      (∀ n, n ≤ K → iterateFailingClaim K e n ⟨0, true, true⟩ = ⟨n, true, true⟩) ∧
      iterateFailingClaim K e (K + 1) ⟨0, true, true⟩ = ⟨K, false, false⟩) ∧
    (K = 0 → ∀ n, iterateFailingClaim K e n ⟨0, true, true⟩ = ⟨n, true, true⟩) := by
  constructor
  · intro hK
    constructor
    · intro n hn
      exact iterateFailingClaim_run K e n (Or.inr hn)
    · rw [iterateFailingClaim, iterateFailingClaim_run K e K (Or.inr (Nat.le_refl K))]
      unfold processNextClaimWorkItem
      have hKb : (K == 0) = false := by
        simp
        omega
      simp [hKb]
  · intro h0 n
    exact iterateFailingClaim_run K e n (Or.inl h0)

/-- Witness for C6: with K = 2 an always-failing key is requeued twice and
dropped on the third pass; with K = 0 it is still queued after five passes. -/
theorem claim_retry_threshold_witness :
    iterateFailingClaim 2 (Err.msg "boom") 3 ⟨0, true, true⟩ = ⟨2, false, false⟩ ∧
    iterateFailingClaim 0 (Err.msg "boom") 5 ⟨0, true, true⟩ = ⟨5, true, true⟩ :=
  ⟨((claim_retry_threshold 2 (Err.msg "boom")).1 (by decide)).2,
   (claim_retry_threshold 0 (Err.msg "boom")).2 rfl 5⟩

/- Claim C7. -/

/-- Claim C7: deleteVolumeOperation removes the protection finalizer only
after the backend Delete has succeeded — on a non-ignored backend Delete
failure it returns that error having issued neither the API-server record
deletion nor any finalizer update; a finalizer-removing update is issued only
when the backend Delete returned nil and the record deletion succeeded; on
backend Delete success the record deletion is always issued; and on the full
success path (finalizer management on, finalizers present, volume re-read
from the cache, removal modifying the list) the finalizer update is issued on
the re-read copy. -/
theorem finalizer_removed_only_after_delete (ctrl : ProvisionController)
    (env : VolumeSyncEnv) (volume : PersistentVolume) :
    (∀ e, env.deleteResult = some e → (∀ r, e ≠ Err.ignored r) →
      deleteVolumeOperation ctrl env volume = ⟨some e, false, false⟩) ∧
    ((deleteVolumeOperation ctrl env volume).finalizerUpdateIssued = true →
      env.deleteResult = none ∧ env.apiDeleteOk = true) ∧
    (env.deleteResult = none →
      (deleteVolumeOperation ctrl env volume).apiDeleteCalled = true) ∧
    (∀ nv, env.deleteResult = none → env.apiDeleteOk = true →
      ctrl.addFinalizer = true → volume.finalizers ≠ [] →
      env.cacheVolume = some nv →
      (removeFinalizer nv.finalizers finalizerPV).2 = true →
      (deleteVolumeOperation ctrl env volume).finalizerUpdateIssued = true) := by
  refine ⟨?_, ?_, ?_, ?_⟩
  · intro e h hne
    cases e with
    | ignored r => exact absurd rfl (hne r)
    | stopProvision => simp [deleteVolumeOperation, h]
    | msg s => simp [deleteVolumeOperation, h]
  · intro h
    cases hdr : env.deleteResult with
    | some e2 =>
      cases e2 <;> simp [deleteVolumeOperation, hdr] at h
    | none =>
      cases hao : env.apiDeleteOk with
      | false => simp [deleteVolumeOperation, hdr, hao] at h
      | true => exact ⟨rfl, rfl⟩
  · intro hdr
    simp only [deleteVolumeOperation, hdr]
    repeat' split
    all_goals rfl
  · intro nv hdr hao haf hfin hcv hm
    have hlen : volume.finalizers.length > 0 := by
      cases hfl : volume.finalizers with
      | nil => exact absurd hfl hfin
      | cons a l => simp [hfl]
    cases hfu : env.finalizerUpdate <;>
      simp [deleteVolumeOperation, hdr, hao, haf, hcv, hlen, hm, hfu]

/-- Controller with finalizer management enabled, for the C7 witness. -/
def c7ctrl : ProvisionController :=
  { provisionerName := "example.com/nfs", additionalProvisionerNames := [],
    addFinalizer := true, failedProvisionThreshold := 15 }

/-- A Released volume still carrying the protection finalizer, for the C7
witness. -/
def c7vol : PersistentVolume :=
  { name := "pvc-u7", finalizers := [finalizerPV], deletionTimestampSet := false,
    phase := VolumeReleased, reclaimPolicy := PersistentVolumeReclaimDelete,
    anns := [], storageClassName := "nfs-sc", mountOptions := [], nfs := none }

/-- Environment whose backend Delete fails, for the C7 witness. -/
def c7envFail : VolumeSyncEnv :=
  { deleteResult := some (Err.msg "backend delete failed"), apiDeleteOk := true,
    cacheVolume := none, finalizerUpdate := UpdateResult.ok }

/-- Environment whose backend Delete and record deletion succeed, for the C7
witness. -/
def c7envOk : VolumeSyncEnv :=
  { deleteResult := none, apiDeleteOk := true, cacheVolume := some c7vol,
    finalizerUpdate := UpdateResult.ok }

/-- Witness for C7: at a concrete failing backend Delete nothing further is
issued, and at a concrete successful one the finalizer update is issued. -/
theorem finalizer_removed_only_after_delete_witness :
    deleteVolumeOperation c7ctrl c7envFail c7vol =
      ⟨some (Err.msg "backend delete failed"), false, false⟩ ∧
    (deleteVolumeOperation c7ctrl c7envOk c7vol).finalizerUpdateIssued = true :=
  ⟨(finalizer_removed_only_after_delete c7ctrl c7envFail c7vol).1
      (Err.msg "backend delete failed") rfl (by intro r h; simp at h),
   (finalizer_removed_only_after_delete c7ctrl c7envOk c7vol).2.2.2 c7vol
      rfl rfl rfl (by decide) rfl (by decide)⟩

end NfsProv
